import Mathlib

/-!
# Account handlers of `NodeJS.js`

A shallow embedding of the request handlers `userGet`, `userHasPassword`,
`userUpdate`, `userChangePassword`, `userAddOneSignalPlayerId` and
`userDelete`.

* Promise chains are run sequentially; a handler is a function from the
  state of the world before the request to its result and the state after.
* The world holds the `User` collection (keyed by the primary key `_id`),
  the `OneSignalPlayer` collection (a list of documents, no unique key) and
  the log of the calls made to the collaborators.
* Request body fields are absent (`none`) or strings; the JavaScript
  conditions `if (x)` are truthiness tests, so an empty string counts as
  not given, whereas `x !== undefined` holds for every string.
* The stored fields `password` and `integrations.facebook` are absent or
  strings as well and are tested by truthiness, as the source does.
* Hashing and verification belong to the `User` schema, which is not part of
  the source, and enter as the parameters `derive` (what the assignment
  `user.password = x` stores) and `verifyPassword`.  The message constants
  and the Facebook connector enter as parameters too.
-/

set_option autoImplicit false

namespace NodeJS

/-! ## Data model -/

/-- A JSON value held in a profile field; the handlers only copy such values. -/
inductive Value where
  | null
  | bool (b : Bool)
  | num (n : Int)
  | str (s : String)
  deriving DecidableEq, Repr

/-- The constants imported from `constants/messages.const`. -/
structure Messages where
  MSG_CANNOT_CHANGE_PASS_MISSING : String
  MSG_CANNOT_DELETE_PASS_MISSING : String
  MSG_CANNOT_NO_PASS : String
  MSG_CANNOT_FB_PASS : String
  MSG_CANNOT_NO_FB : String

/-- A `User` document without its key: `email`, `password` (the stored
credential, undefined or a string), `profile` (field name to value, `none` for
an absent or undefined field) and `facebook` for `integrations.facebook`. -/
structure User where
  email : Option String
  password : Option String
  profile : String → Option Value
  facebook : Option String

/-- A `OneSignalPlayer` document: the owning account and the device identifier. -/
structure OneSignalPlayer where
  user : String
  playerId : String
  deriving DecidableEq, Repr

/-- The calls a handler makes to its collaborators, in order. -/
inductive Call where
  | findById (_id : String)
  | save (_id : String)
  | remove (_id : String)
  | verifyPassword (plain : String)
  | myInfo (token : String)
  | findOnePlayer (playerId : String)
  | removePlayer (playerId : String)
  | savePlayer (user playerId : String)
  deriving DecidableEq, Repr

/-- The state a request runs against. -/
structure World where
  users : String → Option User
  players : List OneSignalPlayer
  calls : List Call

/-- The errors a handler ends with: the two thrown by the handlers and the
rejection of a collaborator, which the handlers pass on untouched. -/
inductive Failure where
  | UnauthorizedError (msg : String)
  | ForbiddenError (msg : String)
  | Downstream (msg : String)
  deriving DecidableEq, Repr

/-- What the handlers import and do not define: the message constants; the two
credential operations of the `User` schema, `verifyPassword` applied to the
stored `password` and the supplied plaintext, and `derive`, the value that the
assignment `user.password = x` followed by `save()` stores for the body value
`x` (the identity when the schema stores the value as given); and
`FacebookGraphConnector.myInfo`, which answers a token with the `id` field of
the remote user (possibly undefined) or is rejected. -/
structure Env where
  msgs : Messages
  verifyPassword : Option String → String → Bool
  derive : Option String → Option String
  myInfo : String → Except String (Option String)

/-- JavaScript truthiness of a value that is undefined or a string. -/
def truthy (x : Option String) : Bool :=
  match x with
  | none => false
  | some s => s != ""

/-- Modelled from the spec: the schema method `toJSON` is not part of the source.
The value stands for `user.toJSON(level)` of the document `doc` stored under
`_id`, the public view of the account. -/
structure View where
  level : Option String
  _id : String
  doc : User

/-- Modelled from the spec: the `hasPassword` field of the view, not part of the
source, tells whether a local password credential is set. -/
def View.hasPassword (v : View) : Bool :=
  truthy v.doc.password

/-- Body of `userUpdate`. -/
structure UpdateBody where
  email : Option String
  profile : Option (String → Option Value)

/-- Body of `userChangePassword`. -/
structure ChangePasswordBody where
  oldPassword : Option String
  facebookToken : Option String
  password : Option String

/-- Body of `userDelete`. -/
structure DeleteBody where
  password : Option String
  facebookToken : Option String

/-- The result of a handler and the world it leaves. -/
abbrev Outcome (α : Type) : Type := Except Failure α × World

/-! ## Primitives -/

/-- Appends a call to the log. -/
def World.log (w : World) (c : Call) : World :=
  { w with calls := w.calls ++ [c] }

/-- The lookup `User.findById(_id)`. -/
def User.findById (_id : String) (w : World) : Option User × World :=
  (w.users _id, w.log (.findById _id))

/-- The write `user.save()` of the document loaded under `_id`. -/
def User.save (_id : String) (user : User) (w : World) : World :=
  { (w.log (.save _id)) with users := fun i => if i = _id then some user else w.users i }

/-- The deletion `user.remove()` of the document loaded under `_id`. -/
def User.remove (_id : String) (w : World) : World :=
  { (w.log (.remove _id)) with users := fun i => if i = _id then none else w.users i }

/-- The lookup `OneSignalPlayer.findOne(\x7b playerId \x7d)`: the first document with
that identifier. -/
def OneSignalPlayer.findOne (playerId : String) (w : World) :
    Option OneSignalPlayer × World :=
  (w.players.find? (fun p => p.playerId == playerId), w.log (.findOnePlayer playerId))

/-- The deletion `player.remove()` of the document found by `findOne`: that one
document leaves the collection. -/
def OneSignalPlayer.remove (playerId : String) (w : World) : World :=
  { (w.log (.removePlayer playerId)) with
    players := w.players.eraseP (fun p => p.playerId == playerId) }

/-- The write `oneSignalPlayer.save()` of a new document. -/
def OneSignalPlayer.save (p : OneSignalPlayer) (w : World) : World :=
  { (w.log (.savePlayer p.user p.playerId)) with players := w.players ++ [p] }

/-- The call `user.toJSON(level)`. -/
def User.toJSON (level : Option String) (_id : String) (user : User) : View :=
  { level := level, _id := _id, doc := user }

/-- The read `_.get(body, "profile.<key>")`. -/
def lodash.get (body : UpdateBody) (key : String) : Option Value :=
  match body.profile with
  | none => none
  | some p => p key

/-- The write `_.set(user, "profile.<key>", value)`. -/
def lodash.set (user : User) (key : String) (value : Option Value) : User :=
  { user with profile := fun k => if k = key then value else user.profile k }

/-- The message of every `UnauthorizedError`. -/
def unauthorized : Failure :=
  .UnauthorizedError "accessToken is either wrong or expired"

/-! ## Handlers -/

/-- The handler `userGet`. -/
def userGet (profile : Option String) (_id : String) (w : World) :
    Outcome View :=
  match User.findById _id w with
  | (none, w1) => (.error unauthorized, w1)
  | (some user, w1) => (.ok (User.toJSON profile _id user), w1)

/-- The handler `userHasPassword`; the result is the field `hasPassword`. -/
def userHasPassword (_id : String) (w : World) : Outcome Bool :=
  match User.findById _id w with
  | (none, w1) => (.error unauthorized, w1)
  | (some user, w1) => (.ok (User.toJSON none _id user).hasPassword, w1)

/-- The allow-list of `userUpdate`. -/
def ALLOWED_FIELDS : List String :=
  ["firstName", "lastName", "birthDate", "age", "gender", "height", "weight",
   "location", "photo"]

/-- The handler `userUpdate`. -/
def userUpdate (body : UpdateBody) (_id : String) (w : World) :
    Outcome View :=
  match User.findById _id w with
  | (none, w1) => (.error unauthorized, w1)
  | (some user, w1) =>
    let user1 : User :=
      match body.email with
      | some e => { user with email := some e }
      | none => user
    let user2 := ALLOWED_FIELDS.foldl (fun u key => lodash.set u key (lodash.get body key)) user1
    (.ok (User.toJSON none _id user2), User.save _id user2 w1)

/-- The closure `getCheckPasswordPromise` of `userChangePassword`, applied to the
loaded document. -/
def userChangePassword.getCheckPasswordPromise (env : Env) (body : ChangePasswordBody)
    (user : User) (w : World) : Outcome Unit :=
  if truthy body.oldPassword then
    if !truthy user.password then
      (.error (.ForbiddenError env.msgs.MSG_CANNOT_NO_PASS), w)
    else
      let oldPassword := body.oldPassword.getD ""
      let isOldPasswordValid := env.verifyPassword user.password oldPassword
      if !isOldPasswordValid then
        (.error (.ForbiddenError "Old password is not valid"), w.log (.verifyPassword oldPassword))
      else
        (.ok (), w.log (.verifyPassword oldPassword))
  else if truthy body.facebookToken then
    if truthy user.password then
      (.error (.ForbiddenError env.msgs.MSG_CANNOT_FB_PASS), w)
    else if !truthy user.facebook then
      (.error (.ForbiddenError env.msgs.MSG_CANNOT_NO_FB), w)
    else
      let facebookToken := body.facebookToken.getD ""
      match env.myInfo facebookToken with
      | .error e => (.error (.Downstream e), w.log (.myInfo facebookToken))
      | .ok fbUserId =>
        if fbUserId != user.facebook then
          (.error (.ForbiddenError "Wrong Facebook user"), w.log (.myInfo facebookToken))
        else
          (.ok (), w.log (.myInfo facebookToken))
  else
    (.error (.ForbiddenError env.msgs.MSG_CANNOT_CHANGE_PASS_MISSING), w)

/-- The handler `userChangePassword`. -/
def userChangePassword (env : Env) (body : ChangePasswordBody) (_id : String)
    (w : World) : Outcome View :=
  match User.findById _id w with
  | (none, w1) => (.error unauthorized, w1)
  | (some dbUser, w1) =>
    match userChangePassword.getCheckPasswordPromise env body dbUser w1 with
    | (.error e, w2) => (.error e, w2)
    | (.ok _, w2) =>
      let updatedUser : User := { dbUser with password := env.derive body.password }
      (.ok (User.toJSON none _id updatedUser), User.save _id updatedUser w2)

/-- The handler `userAddOneSignalPlayerId`; the result `\x7b\x7d` is `()`. -/
def userAddOneSignalPlayerId (playerId : String) (_id : String) (w : World) :
    Outcome Unit :=
  let w2 :=
    match OneSignalPlayer.findOne playerId w with
    | (some _, w1) => OneSignalPlayer.remove playerId w1
    | (none, w1) => w1
  (.ok (), OneSignalPlayer.save { user := _id, playerId := playerId } w2)

/-- The closure `getCheckPasswordPromise` of `userDelete`, applied to the loaded
document.  With neither field truthy the variable is left undefined and calling
it is a `TypeError`; `userDelete` has returned before that point. -/
def userDelete.getCheckPasswordPromise (env : Env) (body : DeleteBody)
    (user : User) (w : World) : Outcome Unit :=
  if truthy body.password then
    if !truthy user.password then
      (.error (.ForbiddenError env.msgs.MSG_CANNOT_NO_PASS), w)
    else
      let password := body.password.getD ""
      let isPasswordValid := env.verifyPassword user.password password
      if !isPasswordValid then
        (.error (.ForbiddenError "Password is not valid"), w.log (.verifyPassword password))
      else
        (.ok (), w.log (.verifyPassword password))
  else if truthy body.facebookToken then
    if truthy user.password then
      (.error (.ForbiddenError env.msgs.MSG_CANNOT_FB_PASS), w)
    else if !truthy user.facebook then
      (.error (.ForbiddenError env.msgs.MSG_CANNOT_NO_FB), w)
    else
      let facebookToken := body.facebookToken.getD ""
      match env.myInfo facebookToken with
      | .error e => (.error (.Downstream e), w.log (.myInfo facebookToken))
      | .ok fbUserId =>
        if fbUserId != user.facebook then
          (.error (.ForbiddenError "Wrong Facebook user"), w.log (.myInfo facebookToken))
        else
          (.ok (), w.log (.myInfo facebookToken))
  else
    (.error (.Downstream "TypeError: getCheckPasswordPromise is not a function"), w)

/-- The handler `userDelete`; the result `\x7b\x7d` is `()`. -/
def userDelete (env : Env) (body : DeleteBody) (_id : String) (w : World) :
    Outcome Unit :=
  if !truthy body.password && !truthy body.facebookToken then
    (.error (.ForbiddenError env.msgs.MSG_CANNOT_DELETE_PASS_MISSING), w)
  else
    match User.findById _id w with
    | (none, w1) => (.error unauthorized, w1)
    | (some user, w1) =>
      match userDelete.getCheckPasswordPromise env body user w1 with
      | (.error e, w2) => (.error e, w2)
      | (.ok _, w2) => (.ok (), User.remove _id w2)

/-! ## Concrete collaborators used for evaluation -/

/-- Message constants, one distinct text per constant. -/
def demoMsgs : Messages :=
  { MSG_CANNOT_CHANGE_PASS_MISSING := "change: proof missing"
    MSG_CANNOT_DELETE_PASS_MISSING := "delete: proof missing"
    MSG_CANNOT_NO_PASS := "no password set"
    MSG_CANNOT_FB_PASS := "password set"
    MSG_CANNOT_NO_FB := "no facebook" }

/-- Collaborators in which the stored credential is the value assigned, so that
`verifyPassword (derive (some x)) y` holds exactly when `x = y`, and the
connector answers every token with the given remote id. -/
def demoEnv (remoteId : String) : Env :=
  { msgs := demoMsgs
    verifyPassword := fun c p => c == some p
    derive := fun p => p
    myInfo := fun _ => .ok (some remoteId) }

/-- A world without accounts and registrations. -/
def emptyWorld : World :=
  { users := fun _ => none, players := [], calls := [] }

/-- A world with one account stored under `_id`. -/
def oneUser (_id : String) (u : User) : World :=
  { users := fun i => if i = _id then some u else none, players := [], calls := [] }

/-- The account `u1` of the first scenario: a password, nothing else. -/
def userU1 : User :=
  { email := none, password := some "old", profile := fun _ => none, facebook := none }

/-- The account `u2` of the second scenario: linked to `fb123`, no password. -/
def userU2 : User :=
  { email := none, password := none, profile := fun _ => none, facebook := some "fb123" }

/-- An account whose stored `password` is the empty string, linked to `fb123`. -/
def userU3 : User :=
  { email := none, password := some "", profile := fun _ => none, facebook := some "fb123" }

/-- An account with an email, an age and a field outside the allow-list. -/
def userU4 : User :=
  { email := some "ann@example.org"
    password := some "old"
    profile := fun k =>
      if k = "age" then some (.num 30)
      else if k = "nickname" then some (.str "annie")
      else none
    facebook := none }

/-- The invariant of the `OneSignalPlayer` collection: at most one registration
per device identifier, that is, the identifiers of the documents are pairwise
distinct. -/
def RegistryInvariant (players : List OneSignalPlayer) : Prop :=
  (players.map (fun r => r.playerId)).Nodup

instance (players : List OneSignalPlayer) : Decidable (RegistryInvariant players) := by
  unfold RegistryInvariant
  infer_instance

/-! ## Basic facts -/

theorem truthy_some (s : String) : truthy (some s) = true ↔ s ≠ "" := by
  simp [truthy]

theorem truthy_none : truthy none = false := rfl

theorem userGet_of_none (level : Option String) (_id : String) (w : World)
    (h : w.users _id = none) :
    userGet level _id w = (.error unauthorized, w.log (.findById _id)) := by
  simp [userGet, User.findById, h]

theorem userHasPassword_of_none (_id : String) (w : World) (h : w.users _id = none) :
    userHasPassword _id w = (.error unauthorized, w.log (.findById _id)) := by
  simp [userHasPassword, User.findById, h]

theorem userUpdate_of_none (body : UpdateBody) (_id : String) (w : World)
    (h : w.users _id = none) :
    userUpdate body _id w = (.error unauthorized, w.log (.findById _id)) := by
  simp [userUpdate, User.findById, h]

theorem userChangePassword_of_none (env : Env) (body : ChangePasswordBody) (_id : String)
    (w : World) (h : w.users _id = none) :
    userChangePassword env body _id w = (.error unauthorized, w.log (.findById _id)) := by
  simp [userChangePassword, User.findById, h]

theorem userDelete_of_missing (env : Env) (body : DeleteBody) (_id : String)
    (w : World) (h : truthy body.password = false) (h2 : truthy body.facebookToken = false) :
    userDelete env body _id w
      = (.error (.ForbiddenError env.msgs.MSG_CANNOT_DELETE_PASS_MISSING), w) := by
  simp [userDelete, h, h2]

theorem userDelete_of_none (env : Env) (body : DeleteBody) (_id : String)
    (w : World) (hp : truthy body.password = true ∨ truthy body.facebookToken = true)
    (h : w.users _id = none) :
    userDelete env body _id w = (.error unauthorized, w.log (.findById _id)) := by
  rcases hp with hp | hp <;> simp [userDelete, User.findById, h, hp]

theorem userDelete_of_some (env : Env) (body : DeleteBody) (_id : String)
    (w : World) (u : User)
    (hp : truthy body.password = true ∨ truthy body.facebookToken = true)
    (h : w.users _id = some u) :
    userDelete env body _id w =
      match userDelete.getCheckPasswordPromise env body u (w.log (.findById _id)) with
      | (.error e, w2) => (.error e, w2)
      | (.ok _, w2) => (.ok (), User.remove _id w2) := by
  rcases hp with hp | hp <;> simp [userDelete, User.findById, h, hp]

theorem userChangePassword_of_some (env : Env) (body : ChangePasswordBody) (_id : String)
    (w : World) (u : User) (h : w.users _id = some u) :
    userChangePassword env body _id w =
      match userChangePassword.getCheckPasswordPromise env body u (w.log (.findById _id)) with
      | (.error e, w2) => (.error e, w2)
      | (.ok _, w2) =>
        (.ok (User.toJSON none _id { u with password := env.derive body.password }),
          User.save _id { u with password := env.derive body.password } w2) := by
  simp [userChangePassword, User.findById, h]

/-- The check of `userChangePassword` never writes to a collection. -/
theorem change_check_store (env : Env) (body : ChangePasswordBody) (u : User)
    (w : World) :
    (userChangePassword.getCheckPasswordPromise env body u w).2.users = w.users ∧
    (userChangePassword.getCheckPasswordPromise env body u w).2.players = w.players := by
  unfold userChangePassword.getCheckPasswordPromise
  dsimp only
  constructor <;> (repeat' split) <;> rfl

/-- The check of `userDelete` never writes to a collection. -/
theorem delete_check_store (env : Env) (body : DeleteBody) (u : User)
    (w : World) :
    (userDelete.getCheckPasswordPromise env body u w).2.users = w.users ∧
    (userDelete.getCheckPasswordPromise env body u w).2.players = w.players := by
  unfold userDelete.getCheckPasswordPromise
  dsimp only
  constructor <;> (repeat' split) <;> rfl

/-- The check of `userChangePassword` with a non-empty `oldPassword`. -/
theorem change_check_password (env : Env) (old : String) (tok p : Option String)
    (u : User) (w : World) (hne : old ≠ "") :
    userChangePassword.getCheckPasswordPromise env ⟨some old, tok, p⟩ u w =
      if truthy u.password = false then
        (.error (.ForbiddenError env.msgs.MSG_CANNOT_NO_PASS), w)
      else if env.verifyPassword u.password old = true then
        (.ok (), w.log (.verifyPassword old))
      else
        (.error (.ForbiddenError "Old password is not valid"),
          w.log (.verifyPassword old)) := by
  have ht : truthy (some old) = true := (truthy_some old).2 hne
  unfold userChangePassword.getCheckPasswordPromise
  simp only [ht, if_true, Option.getD_some]
  cases truthy u.password <;> cases h : env.verifyPassword u.password old <;> simp [h]

/-- The check of `userDelete` with a non-empty `password`. -/
theorem delete_check_password (env : Env) (pw : String) (tok : Option String)
    (u : User) (w : World) (hne : pw ≠ "") :
    userDelete.getCheckPasswordPromise env ⟨some pw, tok⟩ u w =
      if truthy u.password = false then
        (.error (.ForbiddenError env.msgs.MSG_CANNOT_NO_PASS), w)
      else if env.verifyPassword u.password pw = true then
        (.ok (), w.log (.verifyPassword pw))
      else
        (.error (.ForbiddenError "Password is not valid"),
          w.log (.verifyPassword pw)) := by
  have ht : truthy (some pw) = true := (truthy_some pw).2 hne
  unfold userDelete.getCheckPasswordPromise
  simp only [ht, if_true, Option.getD_some]
  cases truthy u.password <;> cases h : env.verifyPassword u.password pw <;> simp [h]

/-- The check of `userChangePassword` with no `oldPassword` and a non-empty
`facebookToken`. -/
theorem change_check_token (env : Env) (tok : String) (p : Option String) (u : User)
    (w : World) (hne : tok ≠ "") :
    userChangePassword.getCheckPasswordPromise env ⟨none, some tok, p⟩ u w =
      if truthy u.password = true then
        (.error (.ForbiddenError env.msgs.MSG_CANNOT_FB_PASS), w)
      else if truthy u.facebook = false then
        (.error (.ForbiddenError env.msgs.MSG_CANNOT_NO_FB), w)
      else
        match env.myInfo tok with
        | .error e => (.error (.Downstream e), w.log (.myInfo tok))
        | .ok r =>
          if r = u.facebook then (.ok (), w.log (.myInfo tok))
          else (.error (.ForbiddenError "Wrong Facebook user"), w.log (.myInfo tok)) := by
  have ht : truthy (some tok) = true := (truthy_some tok).2 hne
  unfold userChangePassword.getCheckPasswordPromise
  simp only [ht, truthy_none, if_true, Option.getD_some]
  cases truthy u.password <;> cases truthy u.facebook <;> simp

/-- The check of `userDelete` with no `password` and a non-empty `facebookToken`. -/
theorem delete_check_token (env : Env) (tok : String) (u : User)
    (w : World) (hne : tok ≠ "") :
    userDelete.getCheckPasswordPromise env ⟨none, some tok⟩ u w =
      if truthy u.password = true then
        (.error (.ForbiddenError env.msgs.MSG_CANNOT_FB_PASS), w)
      else if truthy u.facebook = false then
        (.error (.ForbiddenError env.msgs.MSG_CANNOT_NO_FB), w)
      else
        match env.myInfo tok with
        | .error e => (.error (.Downstream e), w.log (.myInfo tok))
        | .ok r =>
          if r = u.facebook then (.ok (), w.log (.myInfo tok))
          else (.error (.ForbiddenError "Wrong Facebook user"), w.log (.myInfo tok)) := by
  have ht : truthy (some tok) = true := (truthy_some tok).2 hne
  unfold userDelete.getCheckPasswordPromise
  simp only [ht, truthy_none, if_true, Option.getD_some]
  cases truthy u.password <;> cases truthy u.facebook <;> simp

/-- The outcome of `userChangePassword` on the password path when the stored
credential accepts the supplied value. -/
theorem userChangePassword_accept (env : Env) (_id : String) (w : World)
    (u : User) (hu : w.users _id = some u) (old : String) (hne : old ≠ "")
    (tok p : Option String) (hc : truthy u.password = true)
    (hv : env.verifyPassword u.password old = true) :
    userChangePassword env ⟨some old, tok, p⟩ _id w
      = (.ok (User.toJSON none _id { u with password := env.derive p }),
          User.save _id { u with password := env.derive p }
            ((w.log (.findById _id)).log (.verifyPassword old))) := by
  rw [userChangePassword_of_some env _ _id w u hu, change_check_password env old tok p u _ hne]
  simp [hc, hv]

/-- The outcome of `userChangePassword` on the password path when the stored
credential rejects the supplied value. -/
theorem userChangePassword_reject (env : Env) (_id : String) (w : World)
    (u : User) (hu : w.users _id = some u) (old : String) (hne : old ≠ "")
    (tok p : Option String) (hc : truthy u.password = true)
    (hv : env.verifyPassword u.password old = false) :
    userChangePassword env ⟨some old, tok, p⟩ _id w
      = (.error (.ForbiddenError "Old password is not valid"),
          (w.log (.findById _id)).log (.verifyPassword old)) := by
  rw [userChangePassword_of_some env _ _id w u hu, change_check_password env old tok p u _ hne]
  simp [hc, hv]

/-- With an empty `oldPassword` and no token `userChangePassword` never succeeds. -/
theorem userChangePassword_empty_fails (env : Env) (_id : String) (w : World)
    (p : Option String) (v : View) :
    (userChangePassword env ⟨some "", none, p⟩ _id w).1 ≠ .ok v := by
  cases hu : w.users _id with
  | none => rw [userChangePassword_of_none env _ _id w hu]; simp
  | some u =>
    rw [userChangePassword_of_some env _ _id w u hu]
    simp [userChangePassword.getCheckPasswordPromise, truthy]

/-- On the password path `userChangePassword` succeeds only for an account whose
stored credential is truthy. -/
theorem userChangePassword_ok_truthy (env : Env) (_id : String) (w : World)
    (u : User) (hu : w.users _id = some u) (old : String) (hne : old ≠ "")
    (tok p : Option String) (v : View)
    (hok : (userChangePassword env ⟨some old, tok, p⟩ _id w).1 = .ok v) :
    truthy u.password = true := by
  rw [userChangePassword_of_some env _ _id w u hu,
    change_check_password env old tok p u _ hne] at hok
  cases ht : truthy u.password with
  | true => rfl
  | false => simp [ht] at hok

/-- Erasing the first registration of a device leaves the registrations of the
other devices as they are. -/
theorem filter_ne_eraseP (a : String) (l : List OneSignalPlayer) :
    (l.eraseP (fun r => r.playerId == a)).filter (fun r => r.playerId != a)
      = l.filter (fun r => r.playerId != a) := by
  induction l with
  | nil => rfl
  | cons x xs ih =>
    by_cases hx : x.playerId = a
    · simp [List.eraseP_cons, hx]
    · simp [List.eraseP_cons, hx, ih]

/-- Under the invariant, erasing the first registration of a device leaves none
of that device. -/
theorem not_mem_eraseP (a : String) (l : List OneSignalPlayer)
    (h : RegistryInvariant l) :
    a ∉ (l.eraseP (fun r => r.playerId == a)).map (fun r => r.playerId) := by
  induction l with
  | nil => simp
  | cons x xs ih =>
    have hn : x.playerId ∉ xs.map (fun r => r.playerId) ∧ RegistryInvariant xs := by
      simpa [RegistryInvariant] using h
    by_cases hx : x.playerId = a
    · rw [← hx]
      simpa [List.eraseP_cons] using hn.1
    · have hrec := ih hn.2
      have he : (x :: xs).eraseP (fun r => r.playerId == a)
          = x :: xs.eraseP (fun r => r.playerId == a) := by
        simp [List.eraseP_cons, hx]
      rw [he, List.map_cons, List.mem_cons, not_or]
      exact ⟨fun h => hx h.symm, hrec⟩

/-- The collection left by `userAddOneSignalPlayerId`. -/
theorem userAddOneSignalPlayerId_players (playerId _id : String) (w : World) :
    (userAddOneSignalPlayerId playerId _id w).2.players
      = w.players.eraseP (fun r => r.playerId == playerId) ++ [⟨_id, playerId⟩] := by
  unfold userAddOneSignalPlayerId OneSignalPlayer.findOne
  cases hf : w.players.find? (fun r => r.playerId == playerId) with
  | none =>
    have hall : ∀ r ∈ w.players, ¬ (r.playerId == playerId) = true := by
      simpa using hf
    simp [OneSignalPlayer.save, World.log, List.eraseP_of_forall_not hall]
  | some r => simp [OneSignalPlayer.save, OneSignalPlayer.remove, World.log]

/-- The allow-listed copy of `userUpdate` run over a list of keys: the listed
profile fields take the value read from the body, everything else stays. -/
theorem foldl_set (body : UpdateBody) (keys : List String) (u : User) :
    keys.foldl (fun a key => lodash.set a key (lodash.get body key)) u
      = { u with profile := fun k => if k ∈ keys then lodash.get body k else u.profile k } := by
  induction keys generalizing u with
  | nil => simp
  | cons key ks ih =>
    rw [List.foldl_cons, ih]
    simp only [lodash.set]
    congr 1
    funext k
    by_cases h1 : k ∈ ks
    · simp [h1]
    · by_cases h2 : k = key <;> simp [h1, h2]

/-! ## Accounts that do not exist -/

/-- C1, as stated, fails: with no account under the caller id, `userAddOneSignalPlayerId`
still returns the empty acknowledgement, and `userDelete` without a proof field
ends with the missing-proof `ForbiddenError`, not with `UnauthorizedError`. -/
theorem registerDevice_succeeds_without_account :
    emptyWorld.users "ghost" = none ∧
    (userAddOneSignalPlayerId "p1" "ghost" emptyWorld).1 = .ok () ∧
    (userDelete (demoEnv "fb1") ⟨none, none⟩ "ghost" emptyWorld).1
      = .error (.ForbiddenError "delete: proof missing") :=
  ⟨rfl, rfl, rfl⟩

/-- C1, amended: with no account under the caller id, `userGet`, `userHasPassword`,
`userUpdate` and `userChangePassword` end with `UnauthorizedError` for every
body, and so does `userDelete` for every body with a non-empty `password` or
`facebookToken`. -/
theorem unauthorized_without_account (env : Env) (_id : String) (w : World)
    (h : w.users _id = none) :
    (∀ level, (userGet level _id w).1 = .error unauthorized) ∧
    (userHasPassword _id w).1 = .error unauthorized ∧
    (∀ body, (userUpdate body _id w).1 = .error unauthorized) ∧
    (∀ body, (userChangePassword env body _id w).1 = .error unauthorized) ∧
    (∀ body : DeleteBody, truthy body.password = true ∨ truthy body.facebookToken = true →
      (userDelete env body _id w).1 = .error unauthorized) := by
  refine ⟨fun level => ?_, ?_, fun body => ?_, fun body => ?_, fun body hp => ?_⟩
  · rw [userGet_of_none level _id w h]
  · rw [userHasPassword_of_none _id w h]
  · rw [userUpdate_of_none body _id w h]
  · rw [userChangePassword_of_none env body _id w h]
  · rw [userDelete_of_none env body _id w hp h]

/-- C1, amended, at the world without accounts. -/
theorem unauthorized_without_account_witness :
    emptyWorld.users "ghost" = none ∧
    (userChangePassword (demoEnv "fb1") ⟨some "old", none, some "new"⟩ "ghost" emptyWorld).1
      = .error unauthorized :=
  ⟨rfl, (unauthorized_without_account (demoEnv "fb1") "ghost" emptyWorld rfl).2.2.2.1 _⟩

/-! ## No proof given -/

/-- C3, as stated, fails: `userChangePassword` without a proof field and without an
account under the caller id ends with `UnauthorizedError`, the lookup coming
first. -/
theorem changePassword_no_proof_no_account :
    emptyWorld.users "ghost" = none ∧
    (userChangePassword (demoEnv "fb1") ⟨none, none, some "new"⟩ "ghost" emptyWorld).1
      = .error (.UnauthorizedError "accessToken is either wrong or expired") :=
  ⟨rfl, rfl⟩

/-- C3, amended: a body with neither proof field ends `userDelete` with
`ForbiddenError MSG_CANNOT_DELETE_PASS_MISSING` for every caller id and every
world, which is left untouched; it ends `userChangePassword` with
`ForbiddenError MSG_CANNOT_CHANGE_PASS_MISSING` whenever an account exists under
the caller id, after the lookup alone. -/
theorem proof_missing_rejected (env : Env) (_id : String) (w : World)
    (u : User) (hu : w.users _id = some u) (password : Option String) :
    (∀ (i : String) (w0 : World),
      userDelete env ⟨none, none⟩ i w0
        = (.error (.ForbiddenError env.msgs.MSG_CANNOT_DELETE_PASS_MISSING), w0)) ∧
    userChangePassword env ⟨none, none, password⟩ _id w
      = (.error (.ForbiddenError env.msgs.MSG_CANNOT_CHANGE_PASS_MISSING),
          w.log (.findById _id)) := by
  refine ⟨fun i w0 => userDelete_of_missing env _ i w0 rfl rfl, ?_⟩
  rw [userChangePassword_of_some env _ _id w u hu]
  simp [userChangePassword.getCheckPasswordPromise, truthy]

/-- C3, amended, at the account `u1`. -/
theorem proof_missing_rejected_witness :
    (oneUser "u1" userU1).users "u1" = some userU1 ∧
    userChangePassword (demoEnv "fb1") ⟨none, none, some "new"⟩ "u1" (oneUser "u1" userU1)
      = (.error (.ForbiddenError "change: proof missing"),
          (oneUser "u1" userU1).log (.findById "u1")) :=
  ⟨rfl, (proof_missing_rejected (demoEnv "fb1") "u1" (oneUser "u1" userU1) userU1 rfl (some "new")).2⟩

/-! ## Deletion and failure -/

/-- C9: when `userDelete` succeeds, no account is left under the caller id, every
other account is as before, the result is the empty acknowledgement and a
following `userGet` for the same id ends with `UnauthorizedError`. -/
theorem delete_success_removes (env : Env) (body : DeleteBody) (_id : String)
    (w : World) (r : Unit) (h : (userDelete env body _id w).1 = .ok r) :
    (userDelete env body _id w).2.users _id = none ∧
    (∀ i, i ≠ _id → (userDelete env body _id w).2.users i = w.users i) ∧
    r = () ∧
    (userDelete env body _id w).2.players = w.players ∧
    ∀ level, (userGet level _id (userDelete env body _id w).2).1 = .error unauthorized := by
  have key : (userDelete env body _id w).2.users = (fun i => if i = _id then none else w.users i)
      ∧ (userDelete env body _id w).2.players = w.players := by
    unfold userDelete at h ⊢
    split at h
    · simp at h
    · rw [if_neg (by assumption)]
      cases hu : w.users _id with
      | none => simp [User.findById, hu] at h
      | some u =>
        have hs := delete_check_store env body u (w.log (.findById _id))
        simp only [User.findById, hu] at h ⊢
        generalize userDelete.getCheckPasswordPromise env body u (w.log (.findById _id)) = o at h hs ⊢
        rcases o with ⟨_ | _, w2⟩
        · simp at h
        · simp only [User.remove, World.log] at hs ⊢
          exact ⟨by rw [hs.1], hs.2⟩
  have h1 : (userDelete env body _id w).2.users _id = none := by rw [key.1]; simp
  refine ⟨h1, fun i hi => ?_, rfl, key.2, fun level => ?_⟩
  · rw [key.1]; simp [hi]
  · rw [userGet_of_none level _id _ h1]

/-- C9 at the account `u2`, the connector answering with the linked id. -/
theorem delete_success_removes_witness :
    (userDelete (demoEnv "fb123") ⟨none, some "tok"⟩ "u2" (oneUser "u2" userU2)).1 = .ok () ∧
    (userDelete (demoEnv "fb123") ⟨none, some "tok"⟩ "u2" (oneUser "u2" userU2)).2.users "u2"
      = none :=
  ⟨rfl, (delete_success_removes (demoEnv "fb123") ⟨none, some "tok"⟩ "u2"
    (oneUser "u2" userU2) () rfl).1⟩

/-- C10: when `userDelete` or `userChangePassword` ends with an error, of whatever
kind, both collections are exactly as before the call; in particular the
account and its password credential are untouched. -/
theorem failure_leaves_store (env : Env) (_id : String) (w : World) :
    (∀ (body : DeleteBody) (e : Failure), (userDelete env body _id w).1 = .error e →
      (userDelete env body _id w).2.users = w.users ∧
      (userDelete env body _id w).2.players = w.players) ∧
    (∀ (body : ChangePasswordBody) (e : Failure),
      (userChangePassword env body _id w).1 = .error e →
      (userChangePassword env body _id w).2.users = w.users ∧
      (userChangePassword env body _id w).2.players = w.players) := by
  constructor
  · intro body e h
    unfold userDelete at h ⊢
    split
    · exact ⟨rfl, rfl⟩
    · rw [if_neg (by assumption)] at h
      cases hu : w.users _id with
      | none => simp [User.findById, hu, World.log]
      | some u =>
        have hs := delete_check_store env body u (w.log (.findById _id))
        simp only [User.findById, hu] at h ⊢
        generalize userDelete.getCheckPasswordPromise env body u (w.log (.findById _id)) = o at h hs ⊢
        rcases o with ⟨_ | _, w2⟩
        · exact hs
        · simp at h
  · intro body e h
    cases hu : w.users _id with
    | none => rw [userChangePassword_of_none env body _id w hu]; exact ⟨rfl, rfl⟩
    | some u =>
      have hs := change_check_store env body u (w.log (.findById _id))
      rw [userChangePassword_of_some env body _id w u hu] at h ⊢
      generalize userChangePassword.getCheckPasswordPromise env body u (w.log (.findById _id)) = o at h hs ⊢
      rcases o with ⟨_ | _, w2⟩
      · exact hs
      · simp at h

/-- C10 at the account `u2`, the connector answering with another remote id: the
deletion is refused and the account is still there. -/
theorem failure_leaves_store_witness :
    (userDelete (demoEnv "fb999") ⟨none, some "tok"⟩ "u2" (oneUser "u2" userU2)).1
      = .error (.ForbiddenError "Wrong Facebook user") ∧
    (userDelete (demoEnv "fb999") ⟨none, some "tok"⟩ "u2" (oneUser "u2" userU2)).2.users
      = (oneUser "u2" userU2).users :=
  ⟨rfl, ((failure_leaves_store (demoEnv "fb999") "u2" (oneUser "u2" userU2)).1
    ⟨none, some "tok"⟩ _ rfl).1⟩

/-! ## Choice of the proof method -/

/-- C2, as stated, fails: an `oldPassword` that is the empty string is supplied
together with a `facebookToken`, and the token path runs: the connector is
called and the password is changed, whereas the same request without the token
is refused with the missing-proof error. -/
theorem empty_oldPassword_uses_token :
    (userChangePassword (demoEnv "fb123") ⟨some "", some "tok", some "new"⟩ "u2"
        (oneUser "u2" userU2)).1.isOk = true ∧
    (userChangePassword (demoEnv "fb123") ⟨some "", some "tok", some "new"⟩ "u2"
        (oneUser "u2" userU2)).2.calls = [.findById "u2", .myInfo "tok", .save "u2"] ∧
    (userChangePassword (demoEnv "fb123") ⟨some "", none, some "new"⟩ "u2"
        (oneUser "u2" userU2)).1 = .error (.ForbiddenError "change: proof missing") :=
  ⟨rfl, rfl, rfl⟩

/-- C2, amended: when `oldPassword` (for `userChangePassword`) or `password` (for
`userDelete`) is a non-empty string and a `facebookToken` is given as well, the
result and the world left are those of the same request without the token, and
the request makes no call to the connector. -/
theorem password_path_ignores_token (env : Env) (_id : String) (w : World)
    (pw tok : String) (hne : pw ≠ "") :
    (∀ p : Option String,
      userChangePassword env ⟨some pw, some tok, p⟩ _id w
        = userChangePassword env ⟨some pw, none, p⟩ _id w ∧
      ∀ t, Call.myInfo t ∉
        (userChangePassword env ⟨some pw, some tok, p⟩ _id w).2.calls.drop w.calls.length) ∧
    (userDelete env ⟨some pw, some tok⟩ _id w = userDelete env ⟨some pw, none⟩ _id w ∧
      ∀ t, Call.myInfo t ∉
        (userDelete env ⟨some pw, some tok⟩ _id w).2.calls.drop w.calls.length) := by
  have ht : truthy (some pw) = true := (truthy_some pw).2 hne
  constructor
  · intro p
    cases hu : w.users _id with
    | none =>
      rw [userChangePassword_of_none env _ _id w hu, userChangePassword_of_none env _ _id w hu]
      simp [World.log]
    | some u =>
      rw [userChangePassword_of_some env _ _id w u hu, userChangePassword_of_some env _ _id w u hu,
        change_check_password env pw _ p u _ hne, change_check_password env pw _ p u _ hne]
      refine ⟨rfl, fun t => ?_⟩
      cases truthy u.password <;> cases h : env.verifyPassword u.password pw <;>
        simp [h, World.log, User.save]
  · have hp : ∀ tk : Option String,
        truthy (DeleteBody.mk (some pw) tk).password = true
          ∨ truthy (DeleteBody.mk (some pw) tk).facebookToken = true := fun _ => Or.inl ht
    cases hu : w.users _id with
    | none =>
      rw [userDelete_of_none env _ _id w (hp _) hu, userDelete_of_none env _ _id w (hp _) hu]
      simp [World.log]
    | some u =>
      rw [userDelete_of_some env _ _id w u (hp _) hu, userDelete_of_some env _ _id w u (hp _) hu,
        delete_check_password env pw _ u _ hne, delete_check_password env pw _ u _ hne]
      refine ⟨rfl, fun t => ?_⟩
      cases truthy u.password <;> cases h : env.verifyPassword u.password pw <;>
        simp [h, World.log, User.remove]

/-- C2, amended, at the account `u1` with its password and a token. -/
theorem password_path_ignores_token_witness :
    "old" ≠ "" ∧
    userDelete (demoEnv "fb1") ⟨some "old", some "tok"⟩ "u1" (oneUser "u1" userU1)
      = userDelete (demoEnv "fb1") ⟨some "old", none⟩ "u1" (oneUser "u1" userU1) :=
  ⟨by decide, (password_path_ignores_token (demoEnv "fb1") "u1" (oneUser "u1" userU1)
    "old" "tok" (by decide)).2.1⟩

/-! ## Local-password proof -/

/-- C4, as stated, fails: the `password` supplied to `userDelete` is the empty
string and the account has no credential; the request is refused with the
missing-proof message, not with `MSG_CANNOT_NO_PASS`, the password path not being
entered.  Likewise a stored credential that is the empty string counts as none:
with a non-empty supplied password the request is refused with
`MSG_CANNOT_NO_PASS` after the lookup alone, without verification. -/
theorem empty_password_is_proof_missing :
    userU2.password = none ∧
    (userDelete (demoEnv "fb123") ⟨some "", none⟩ "u2" (oneUser "u2" userU2)).1
      = .error (.ForbiddenError (demoEnv "fb123").msgs.MSG_CANNOT_DELETE_PASS_MISSING) ∧
    (userDelete (demoEnv "fb123") ⟨some "", none⟩ "u2" (oneUser "u2" userU2)).1
      ≠ .error (.ForbiddenError (demoEnv "fb123").msgs.MSG_CANNOT_NO_PASS) ∧
    userU3.password = some "" ∧
    userDelete (demoEnv "fb123") ⟨some "x", none⟩ "u3" (oneUser "u3" userU3)
      = (.error (.ForbiddenError (demoEnv "fb123").msgs.MSG_CANNOT_NO_PASS),
          (oneUser "u3" userU3).log (.findById "u3")) := by
  refine ⟨rfl, rfl, ?_, rfl, rfl⟩
  have h : (userDelete (demoEnv "fb123") ⟨some "", none⟩ "u2" (oneUser "u2" userU2)).1
      = .error (.ForbiddenError "delete: proof missing") := rfl
  rw [h]
  simp [demoEnv, demoMsgs]

/-- C4, amended: for an existing account and a non-empty supplied password,
whatever the token field holds: when the stored credential is absent or empty
both requests end with `ForbiddenError MSG_CANNOT_NO_PASS` after the lookup
alone (no verification); when it is non-empty and rejects the supplied value
they end with the invalid-password `ForbiddenError`; when it is non-empty and
accepts it they succeed, `userChangePassword` storing what the assignment of the
body password stores and `userDelete` removing the account. -/
theorem password_proof_outcomes (env : Env) (_id : String) (w : World)
    (u : User) (hu : w.users _id = some u) (pw : String) (hne : pw ≠ "")
    (tok p : Option String) :
    (truthy u.password = false →
      userChangePassword env ⟨some pw, tok, p⟩ _id w
        = (.error (.ForbiddenError env.msgs.MSG_CANNOT_NO_PASS), w.log (.findById _id)) ∧
      userDelete env ⟨some pw, tok⟩ _id w
        = (.error (.ForbiddenError env.msgs.MSG_CANNOT_NO_PASS), w.log (.findById _id))) ∧
    (truthy u.password = true → env.verifyPassword u.password pw = false →
      userChangePassword env ⟨some pw, tok, p⟩ _id w
        = (.error (.ForbiddenError "Old password is not valid"),
            (w.log (.findById _id)).log (.verifyPassword pw)) ∧
      userDelete env ⟨some pw, tok⟩ _id w
        = (.error (.ForbiddenError "Password is not valid"),
            (w.log (.findById _id)).log (.verifyPassword pw))) ∧
    (truthy u.password = true → env.verifyPassword u.password pw = true →
      userChangePassword env ⟨some pw, tok, p⟩ _id w
        = (.ok (User.toJSON none _id { u with password := env.derive p }),
            User.save _id { u with password := env.derive p }
              ((w.log (.findById _id)).log (.verifyPassword pw))) ∧
      userDelete env ⟨some pw, tok⟩ _id w
        = (.ok (), User.remove _id ((w.log (.findById _id)).log (.verifyPassword pw)))) := by
  have ht : truthy (some pw) = true := (truthy_some pw).2 hne
  have hp : truthy (DeleteBody.mk (some pw) tok).password = true
      ∨ truthy (DeleteBody.mk (some pw) tok).facebookToken = true := Or.inl ht
  rw [userChangePassword_of_some env _ _id w u hu, userDelete_of_some env _ _id w u hp hu,
    change_check_password env pw tok p u _ hne, delete_check_password env pw tok u _ hne]
  refine ⟨fun h => ?_, fun h hv => ?_, fun h hv => ?_⟩
  · simp [h]
  · simp [h, hv]
  · simp [h, hv]

/-- C4, amended, at the account `u1` and its own password. -/
theorem password_proof_outcomes_witness :
    (oneUser "u1" userU1).users "u1" = some userU1 ∧ "old" ≠ "" ∧
    userDelete (demoEnv "fb1") ⟨some "old", none⟩ "u1" (oneUser "u1" userU1)
      = (.ok (), User.remove "u1"
          (((oneUser "u1" userU1).log (.findById "u1")).log (.verifyPassword "old"))) :=
  ⟨rfl, by decide, ((password_proof_outcomes (demoEnv "fb1") "u1" (oneUser "u1" userU1)
    userU1 rfl "old" (by decide) none (some "new")).2.2 rfl rfl).2⟩

/-! ## Social-token proof -/

/-- C5, as stated, fails: the account has no credential and is linked to `fb123`,
the `password` field is absent, the `facebookToken` present is the empty string
and the connector would answer with `fb123`; the request is refused as lacking a
proof and the connector is not called, the token path not being entered.
Likewise a stored credential that is the empty string counts as none: with a
token the connector is called and the account removed. -/
theorem empty_token_is_proof_missing :
    userU2.password = none ∧ userU2.facebook = some "fb123" ∧
    (demoEnv "fb123").myInfo "" = .ok (some "fb123") ∧
    userDelete (demoEnv "fb123") ⟨none, some ""⟩ "u2" (oneUser "u2" userU2)
      = (.error (.ForbiddenError "delete: proof missing"), oneUser "u2" userU2) ∧
    userU3.password = some "" ∧
    userDelete (demoEnv "fb123") ⟨none, some "tok"⟩ "u3" (oneUser "u3" userU3)
      = (.ok (), User.remove "u3"
          (((oneUser "u3" userU3).log (.findById "u3")).log (.myInfo "tok"))) :=
  ⟨rfl, rfl, rfl, rfl, rfl, rfl⟩

/-- C5, amended: for an existing account, the password field absent and a non-empty
`facebookToken`: an account with a non-empty stored credential is refused with
`ForbiddenError MSG_CANNOT_FB_PASS`; otherwise an account whose linked id is
absent or empty is refused with `ForbiddenError MSG_CANNOT_NO_FB`; in both cases
after the lookup alone, the connector not being called.  Otherwise the
connector is called with the token; an answer different from the linked id is
refused with the wrong-user `ForbiddenError`, an answer equal to it makes the
request succeed, and a rejected call ends the request with that rejection, so
that the request succeeds exactly when the answer equals the linked id. -/
theorem token_proof_outcomes (env : Env) (_id : String) (w : World)
    (u : User) (hu : w.users _id = some u) (tok : String) (hne : tok ≠ "")
    (p : Option String) :
    (truthy u.password = true →
      userChangePassword env ⟨none, some tok, p⟩ _id w
        = (.error (.ForbiddenError env.msgs.MSG_CANNOT_FB_PASS), w.log (.findById _id)) ∧
      userDelete env ⟨none, some tok⟩ _id w
        = (.error (.ForbiddenError env.msgs.MSG_CANNOT_FB_PASS), w.log (.findById _id))) ∧
    (truthy u.password = false → truthy u.facebook = false →
      userChangePassword env ⟨none, some tok, p⟩ _id w
        = (.error (.ForbiddenError env.msgs.MSG_CANNOT_NO_FB), w.log (.findById _id)) ∧
      userDelete env ⟨none, some tok⟩ _id w
        = (.error (.ForbiddenError env.msgs.MSG_CANNOT_NO_FB), w.log (.findById _id))) ∧
    (truthy u.password = false → truthy u.facebook = true →
      (∀ r, env.myInfo tok = .ok r → r ≠ u.facebook →
        userChangePassword env ⟨none, some tok, p⟩ _id w
          = (.error (.ForbiddenError "Wrong Facebook user"),
              (w.log (.findById _id)).log (.myInfo tok)) ∧
        userDelete env ⟨none, some tok⟩ _id w
          = (.error (.ForbiddenError "Wrong Facebook user"),
              (w.log (.findById _id)).log (.myInfo tok))) ∧
      (∀ r, env.myInfo tok = .ok r → r = u.facebook →
        userChangePassword env ⟨none, some tok, p⟩ _id w
          = (.ok (User.toJSON none _id { u with password := env.derive p }),
              User.save _id { u with password := env.derive p }
                ((w.log (.findById _id)).log (.myInfo tok))) ∧
        userDelete env ⟨none, some tok⟩ _id w
          = (.ok (), User.remove _id ((w.log (.findById _id)).log (.myInfo tok)))) ∧
      (∀ e, env.myInfo tok = .error e →
        userChangePassword env ⟨none, some tok, p⟩ _id w
          = (.error (.Downstream e), (w.log (.findById _id)).log (.myInfo tok)) ∧
        userDelete env ⟨none, some tok⟩ _id w
          = (.error (.Downstream e), (w.log (.findById _id)).log (.myInfo tok)))) := by
  have ht : truthy (some tok) = true := (truthy_some tok).2 hne
  have hp : truthy (DeleteBody.mk none (some tok)).password = true
      ∨ truthy (DeleteBody.mk none (some tok)).facebookToken = true := Or.inr ht
  rw [userChangePassword_of_some env _ _id w u hu, userDelete_of_some env _ _id w u hp hu,
    change_check_token env tok p u _ hne, delete_check_token env tok u _ hne]
  refine ⟨fun h => ?_, fun h hf => ?_,
    fun h hf => ⟨fun r hr hd => ?_, fun r hr hd => ?_, fun e he => ?_⟩⟩
  · simp [h]
  · simp [h, hf]
  · simp [h, hf, hr, hd]
  · simp [h, hf, hr, hd]
  · simp [h, hf, he]

/-- C5, amended, at the account `u2` and a connector answering with another id. -/
theorem token_proof_outcomes_witness :
    (oneUser "u2" userU2).users "u2" = some userU2 ∧ "tok" ≠ "" ∧
    userDelete (demoEnv "fb999") ⟨none, some "tok"⟩ "u2" (oneUser "u2" userU2)
      = (.error (.ForbiddenError "Wrong Facebook user"),
          ((oneUser "u2" userU2).log (.findById "u2")).log (.myInfo "tok")) :=
  ⟨rfl, by decide, (((token_proof_outcomes (demoEnv "fb999") "u2" (oneUser "u2" userU2)
    userU2 rfl "tok" (by decide) (some "new")).2.2 rfl rfl).1 (some "fb999") rfl
      (by decide)).2⟩

/-! ## The credential after a change -/

/-- C6, as stated, fails, the capability verifying a stored credential against
exactly the plaintext it was derived from.  When the new password equals the
old one, the change succeeds, the stored credential still verifies the old
password and a later change with the same `oldPassword` succeeds too.  When the
new password is the empty string and is stored as given, the change succeeds,
the returned view reports `hasPassword` false and a later change with the same
`oldPassword` is refused with `MSG_CANNOT_NO_PASS`, not as an invalid password. -/
theorem same_password_still_verifies :
    (userChangePassword (demoEnv "fb1") ⟨some "old", none, some "old"⟩ "u1"
        (oneUser "u1" userU1)).1.isOk = true ∧
    (∀ x y : String,
      (demoEnv "fb1").verifyPassword ((demoEnv "fb1").derive (some x)) y = true ↔ x = y) ∧
    userU1.password = (demoEnv "fb1").derive (some "old") ∧
    (demoEnv "fb1").verifyPassword
      (((userChangePassword (demoEnv "fb1") ⟨some "old", none, some "old"⟩ "u1"
        (oneUser "u1" userU1)).2.users "u1").bind (fun a => a.password)) "old" = true ∧
    (userChangePassword (demoEnv "fb1") ⟨some "old", none, some "x"⟩ "u1"
        (userChangePassword (demoEnv "fb1") ⟨some "old", none, some "old"⟩ "u1"
          (oneUser "u1" userU1)).2).1.isOk = true ∧
    (userChangePassword (demoEnv "fb1") ⟨some "old", none, some ""⟩ "u1"
        (oneUser "u1" userU1)).1.map View.hasPassword = .ok false ∧
    (userChangePassword (demoEnv "fb1") ⟨some "old", none, some "x"⟩ "u1"
        (userChangePassword (demoEnv "fb1") ⟨some "old", none, some ""⟩ "u1"
          (oneUser "u1" userU1)).2).1
      = .error (.ForbiddenError (demoEnv "fb1").msgs.MSG_CANNOT_NO_PASS) := by
  refine ⟨rfl, fun x y => ?_, rfl, rfl, rfl, rfl, rfl⟩
  simp [demoEnv]

/-- C6, amended: let the capability verify a stored credential against exactly the
plaintext it was derived from, let the account hold the credential derived from
`old`, and let the new password `p` differ from `old` and be stored as a
non-empty credential.  When `userChangePassword` with `oldPassword = old` and
`password = p` succeeds, the stored account holds the credential derived from
`p`, which verifies `p` and does not verify `old`, the returned view and a
following `userHasPassword` report `hasPassword` true, and a following
`userChangePassword` with the same `oldPassword` ends with the invalid-password
`ForbiddenError`. -/
theorem changed_password_replaces_old (env : Env)
    (hv : ∀ x y : String, env.verifyPassword (env.derive (some x)) y = true ↔ x = y)
    (_id : String) (w : World) (u : User) (hu : w.users _id = some u)
    (old p : String) (hc : u.password = env.derive (some old)) (hne : p ≠ old)
    (hp : truthy (env.derive (some p)) = true) (v : View)
    (hok : (userChangePassword env ⟨some old, none, some p⟩ _id w).1 = .ok v) :
    (∃ u1, (userChangePassword env ⟨some old, none, some p⟩ _id w).2.users _id = some u1 ∧
      u1.password = env.derive (some p) ∧ env.verifyPassword u1.password p = true ∧
      env.verifyPassword u1.password old = false) ∧
    v.hasPassword = true ∧
    (userHasPassword _id (userChangePassword env ⟨some old, none, some p⟩ _id w).2).1
      = .ok true ∧
    ∀ x, (userChangePassword env ⟨some old, none, x⟩ _id
        (userChangePassword env ⟨some old, none, some p⟩ _id w).2).1
      = .error (.ForbiddenError "Old password is not valid") := by
  have hold : old ≠ "" := by
    intro h
    subst h
    exact userChangePassword_empty_fails env _id w (some p) v hok
  have htr : truthy u.password = true :=
    userChangePassword_ok_truthy env _id w u hu old hold none (some p) v hok
  have hacc : env.verifyPassword u.password old = true := by
    rw [hc]; exact (hv old old).2 rfl
  have hrej : env.verifyPassword (env.derive (some p)) old = false := by
    cases h : env.verifyPassword (env.derive (some p)) old with
    | false => rfl
    | true => exact absurd ((hv p old).1 h) hne
  have hout := userChangePassword_accept env _id w u hu old hold none (some p) htr hacc
  rw [hout] at hok ⊢
  have hstored : (User.save _id { u with password := env.derive (some p) }
      ((w.log (.findById _id)).log (.verifyPassword old))).users _id
      = some { u with password := env.derive (some p) } := by
    simp [User.save]
  refine ⟨⟨_, hstored, rfl, (hv p p).2 rfl, hrej⟩, ?_, ?_, fun x => ?_⟩
  · have hview : User.toJSON none _id { u with password := env.derive (some p) } = v := by
      simpa using hok
    rw [← hview]
    exact hp
  · simp [userHasPassword, User.findById, hstored, User.toJSON, View.hasPassword, hp]
  · rw [userChangePassword_reject env _id _ _ hstored old hold none x hp hrej]

/-- C6, amended, at the account `u1`: the password goes from `old` to `new`. -/
theorem changed_password_replaces_old_witness :
    (oneUser "u1" userU1).users "u1" = some userU1 ∧ "new" ≠ "old" ∧
    truthy ((demoEnv "fb1").derive (some "new")) = true ∧
    (userChangePassword (demoEnv "fb1") ⟨some "old", none, some "new"⟩ "u1"
        (oneUser "u1" userU1)).1
      = .ok (User.toJSON none "u1" { userU1 with password := some "new" }) ∧
    ∀ x, (userChangePassword (demoEnv "fb1") ⟨some "old", none, x⟩ "u1"
        (userChangePassword (demoEnv "fb1") ⟨some "old", none, some "new"⟩ "u1"
          (oneUser "u1" userU1)).2).1
      = .error (.ForbiddenError "Old password is not valid") :=
  ⟨rfl, by decide, rfl, rfl,
    (changed_password_replaces_old (demoEnv "fb1") (fun x y => by simp [demoEnv]) "u1"
      (oneUser "u1" userU1) userU1 rfl "old" "new" rfl (by decide) rfl _ rfl).2.2.2⟩

/-! ## Device registration -/

/-- C7: when the collection holds at most one registration per device identifier,
`userAddOneSignalPlayerId` returns the empty acknowledgement and leaves a
collection that satisfies the invariant again, in which the registrations of the
given `playerId` are exactly one, owned by the caller whoever owned it before,
and the registrations of every other `playerId` are those of before; the
accounts are not touched. -/
theorem registerDevice_one_per_device (playerId _id : String) (w : World)
    (hinv : RegistryInvariant w.players) :
    (userAddOneSignalPlayerId playerId _id w).1 = .ok () ∧
    RegistryInvariant (userAddOneSignalPlayerId playerId _id w).2.players ∧
    (userAddOneSignalPlayerId playerId _id w).2.players.filter
        (fun r => r.playerId == playerId) = [⟨_id, playerId⟩] ∧
    (userAddOneSignalPlayerId playerId _id w).2.players.filter
        (fun r => r.playerId != playerId)
      = w.players.filter (fun r => r.playerId != playerId) ∧
    (userAddOneSignalPlayerId playerId _id w).2.users = w.users := by
  have hnot := not_mem_eraseP playerId w.players hinv
  have hsub : ((w.players.eraseP (fun r => r.playerId == playerId)).map
      (fun r => r.playerId)).Nodup :=
    List.Nodup.sublist ((List.eraseP_sublist w.players).map _) hinv
  refine ⟨rfl, ?_, ?_, ?_, ?_⟩
  · rw [userAddOneSignalPlayerId_players]
    unfold RegistryInvariant
    rw [List.map_append, List.nodup_append]
    refine ⟨hsub, by simp, ?_⟩
    intro a ha hb
    have : a = playerId := by simpa using hb
    exact hnot (this ▸ ha)
  · rw [userAddOneSignalPlayerId_players, List.filter_append]
    have hnil : (w.players.eraseP (fun r => r.playerId == playerId)).filter
        (fun r => r.playerId == playerId) = [] := by
      rw [List.filter_eq_nil_iff]
      intro r hr hp
      exact hnot (List.mem_map.2 ⟨r, hr, by simpa using hp⟩)
    rw [hnil]
    simp
  · rw [userAddOneSignalPlayerId_players, List.filter_append, filter_ne_eraseP]
    simp
  · unfold userAddOneSignalPlayerId OneSignalPlayer.findOne
    cases w.players.find? (fun r => r.playerId == playerId) <;> rfl

/-- C7 at a collection in which device `p1` belongs to account `B`: after the call
of account `A` the one registration of `p1` belongs to `A`. -/
theorem registerDevice_one_per_device_witness :
    RegistryInvariant [⟨"B", "p1"⟩, ⟨"B", "p2"⟩] ∧
    (userAddOneSignalPlayerId "p1" "A"
        ({ users := fun _ => none, players := [⟨"B", "p1"⟩, ⟨"B", "p2"⟩], calls := [] } :
          World)).2.players.filter (fun r => r.playerId == "p1") = [⟨"A", "p1"⟩] :=
  ⟨by decide,
    (registerDevice_one_per_device "p1" "A"
      ({ users := fun _ => none, players := [⟨"B", "p1"⟩, ⟨"B", "p2"⟩], calls := [] } :
        World) (by decide)).2.2.1⟩

/-! ## Profile update -/

/-- C8: for an existing account `userUpdate` succeeds and stores under the same id a
record whose `email` is that of the body when the body defines one and the old
one otherwise, whose profile fields `firstName`, `lastName`, `birthDate`, `age`,
`gender`, `height`, `weight`, `location` and `photo` are those of
`body.profile` (absent when the body has no `profile` or its `profile` lacks the
field, so that omitting `age` clears it), and whose password credential, linked
Facebook id and other profile fields are the old ones; the other accounts are
unchanged. -/
theorem update_stores_patch (body : UpdateBody) (_id : String) (w : World)
    (u : User) (hu : w.users _id = some u) :
    ∃ u1 : User,
      userUpdate body _id w
        = (.ok (User.toJSON none _id u1), User.save _id u1 (w.log (.findById _id))) ∧
      (userUpdate body _id w).2.users _id = some u1 ∧
      (∀ i, i ≠ _id → (userUpdate body _id w).2.users i = w.users i) ∧
      (∀ e, body.email = some e → u1.email = some e) ∧
      (body.email = none → u1.email = u.email) ∧
      (∀ k ∈ ["firstName", "lastName", "birthDate", "age", "gender", "height", "weight",
          "location", "photo"],
        (∀ q, body.profile = some q → u1.profile k = q k) ∧
        (body.profile = none → u1.profile k = none)) ∧
      (∀ k, k ∉ ["firstName", "lastName", "birthDate", "age", "gender", "height", "weight",
          "location", "photo"] → u1.profile k = u.profile k) ∧
      u1.password = u.password ∧ u1.facebook = u.facebook := by
  have hrun : userUpdate body _id w
      = (.ok (User.toJSON none _id
            { (match body.email with
                | some e => { u with email := some e }
                | none => u : User) with
              profile := fun k => if k ∈ ALLOWED_FIELDS then lodash.get body k
                else (match body.email with
                  | some e => { u with email := some e }
                  | none => u : User).profile k }),
          User.save _id
            { (match body.email with
                | some e => { u with email := some e }
                | none => u : User) with
              profile := fun k => if k ∈ ALLOWED_FIELDS then lodash.get body k
                else (match body.email with
                  | some e => { u with email := some e }
                  | none => u : User).profile k }
            (w.log (.findById _id))) := by
    simp only [userUpdate, User.findById, hu, foldl_set]
  refine ⟨_, hrun, ?_, ?_, ?_, ?_, ?_, ?_, ?_, ?_⟩
  · rw [hrun]; simp [User.save]
  · intro i hi; rw [hrun]; simp [User.save, hi, World.log]
  · intro e he; simp [he]
  · intro he; simp [he]
  · intro k hk
    have hk1 : k ∈ ALLOWED_FIELDS := hk
    refine ⟨fun q hq => ?_, fun hq => ?_⟩ <;> simp only [if_pos hk1, lodash.get, hq]
  · intro k hk
    have hk1 : k ∉ ALLOWED_FIELDS := hk
    cases body.email <;> simp only [if_neg hk1]
  · cases body.email <;> rfl
  · cases body.email <;> rfl

/-- C8 at the account `u4`, which has an email, an age and a nickname, and a body
that gives a first name only: the stored `age` is cleared, the first name is
set, the email and the nickname are the old ones. -/
theorem update_stores_patch_witness :
    (oneUser "u4" userU4).users "u4" = some userU4 ∧
    userU4.profile "age" = some (.num 30) ∧
    ∃ u1 : User,
      (userUpdate ⟨none, some (fun k => if k = "firstName" then some (.str "Ann") else none)⟩
        "u4" (oneUser "u4" userU4)).2.users "u4" = some u1 ∧
      u1.profile "age" = none ∧ u1.profile "firstName" = some (.str "Ann") ∧
      u1.profile "nickname" = some (.str "annie") ∧
      u1.email = some "ann@example.org" := by
  refine ⟨rfl, rfl, ?_⟩
  obtain ⟨u1, -, hs, -, -, he, hp, hq, -, -⟩ :=
    update_stores_patch
      ⟨none, some (fun k => if k = "firstName" then some (.str "Ann") else none)⟩
      "u4" (oneUser "u4" userU4) userU4 rfl
  refine ⟨u1, hs, ?_, ?_, ?_, ?_⟩
  · rw [(hp "age" (by decide)).1 _ rfl]; rfl
  · rw [(hp "firstName" (by decide)).1 _ rfl]; rfl
  · rw [hq "nickname" (by decide)]; rfl
  · rw [he rfl]; rfl

end NodeJS
